import Mathlib

/-!
Shallow embedding of `cache-metrics-exporter.py`: a Prometheus exporter that
samples per-node cache statistics from containers, physical disk usage and
per-container network counters, and republishes them as labelled gauge series.

Strings are manipulated through Python-like primitives over `List Char`,
written with structural (fuel-based) recursion so that every definition
reduces inside the kernel.  External command executions are modelled by an
environment supplying, per command, either an exception (`CmdAttempt.raised`)
or a return code and captured stdout (`CmdAttempt.ran`).  Gauge values are
modelled as exact rationals.
-/

/-! ### Python-like string primitives -/

/-- The character list of a string (Python treats strings as char sequences). -/
def chars (s : String) : List Char := s.data

/-- Rebuild a `String` from a character list. -/
def strOf (l : List Char) : String := ⟨l⟩

/-- Fuel-driven worker for `str.split(pat)`: scans left to right, splitting at
each leftmost non-overlapping occurrence of `pat`. -/
def splitOnCFuel (pat : List Char) : Nat → List Char → List Char → List (List Char)
  | _, [], acc => [acc.reverse]
  | 0, s, acc => [acc.reverse ++ s]
  | fuel + 1, c :: rest, acc =>
    if pat.isPrefixOf (c :: rest) then
      acc.reverse :: splitOnCFuel pat fuel ((c :: rest).drop pat.length) []
    else
      splitOnCFuel pat fuel rest (c :: acc)

/-- Python `s.split(pat)` for a non-empty separator `pat`. -/
def pySplit (s pat : List Char) : List (List Char) := splitOnCFuel pat s.length s []

/-- Python `pat in s` (substring test), via the split-part count. -/
def pyContains (s pat : List Char) : Bool := 1 < (pySplit s pat).length

/-- Python `s.replace(pat, '')`: removes every occurrence of `pat`. -/
def pyReplace (s pat : List Char) : List Char := (pySplit s pat).flatten

/-- Python `s.split(pat, 1)[1]`: everything after the first occurrence of
`pat` (only meaningful when `pat in s`). -/
def pyAfterFirst (s pat : List Char) : List Char :=
  List.intercalate pat (pySplit s pat).tail

/-- Python `s.strip()`. -/
def pyStrip (s : List Char) : List Char :=
  ((s.dropWhile Char.isWhitespace).reverse.dropWhile Char.isWhitespace).reverse

/-- Fuel-driven worker for no-argument `str.split()`: splits on whitespace
runs and never yields empty fields. -/
def pySplitWsFuel : Nat → List Char → List (List Char)
  | _, [] => []
  | 0, s => [s]
  | fuel + 1, c :: rest =>
    if c.isWhitespace then pySplitWsFuel fuel rest
    else
      (c :: rest.takeWhile (fun d => !d.isWhitespace)) ::
        pySplitWsFuel fuel (rest.dropWhile (fun d => !d.isWhitespace))

/-- Python `s.split()` (no argument form). -/
def pySplitWs (s : List Char) : List (List Char) := pySplitWsFuel s.length s

/-- Numeric value of a digit list (most significant first). -/
def natOfDigits (ds : List Char) : Nat :=
  ds.foldl (fun n c => 10 * n + (c.toNat - '0'.toNat)) 0

/-- Python `int(s)`: strips whitespace, accepts an optional sign followed by
digits, and raises (`none`) otherwise. -/
def pyInt? (s : List Char) : Option Int :=
  match pyStrip s with
  | '-' :: ds => if ds ≠ [] ∧ ds.all Char.isDigit then some (-(natOfDigits ds : Int)) else none
  | '+' :: ds => if ds ≠ [] ∧ ds.all Char.isDigit then some (natOfDigits ds : Int) else none
  | ds => if ds ≠ [] ∧ ds.all Char.isDigit then some (natOfDigits ds : Int) else none

/-- Decimal digit rendering of one digit value. -/
def digitChar (d : Nat) : Char := Char.ofNat (48 + d)

/-- Fuel-driven decimal rendering of a natural number. -/
def natCharsFuel : Nat → Nat → List Char
  | 0, _ => []
  | fuel + 1, n =>
    if n < 10 then [digitChar n]
    else natCharsFuel fuel (n / 10) ++ [digitChar (n % 10)]

/-- Python `str(n)` for a natural number. -/
def natChars (n : Nat) : List Char := natCharsFuel (n + 1) n

/-! ### Command execution model -/

/-- Outcome of one `subprocess.run` call: either the call itself raised, or it
ran and produced a return code together with captured stdout. -/
inductive CmdAttempt where
  | raised : CmdAttempt
  | ran : Int → List Char → CmdAttempt

/-- Unwrap a command attempt inside a `try:` block; a raised call becomes the
propagating exception. -/
def runCmd : CmdAttempt → Except Unit (Int × List Char)
  | .raised => Except.error ()
  | .ran rc out => Except.ok (rc, out)

/-! ### Cache sampler (`get_docker_cache_stats`) -/

/-- Per-node cache sample: `{'cache_size': .., 'object_count': .., 'hits': ..,
'misses': ..}`. -/
structure NodeStats where
  cache_size : Int
  object_count : Int
  hits : Nat
  misses : Nat
deriving DecidableEq

/-- The zero-value record a failed node degrades to. -/
def zeroNodeStats : NodeStats := ⟨0, 0, 0, 0⟩

/-- Environment of one container's sampling commands: disk listing, per-disk
`du -sb`, per-disk `find | wc -l`, and the log tail. -/
structure NodeEnv where
  lsOut : CmdAttempt
  duOut : Nat → CmdAttempt
  findOut : Nat → CmdAttempt
  logsOut : CmdAttempt

/-- Parse of the `ls -d /cache/disk*` output into available disk numbers:
lines containing `/cache/disk` whose remainder after removing that substring
is all digits. -/
def parseAvailableDisks (rc : Int) (stdout : List Char) : List Nat :=
  if rc = 0 ∧ pyStrip stdout ≠ [] then
    (pySplit (pyStrip stdout) (chars "\n")).filterMap (fun line =>
      if pyContains line (chars "/cache/disk") then
        let disk_num := pyReplace line (chars "/cache/disk")
        if disk_num ≠ [] ∧ disk_num.all Char.isDigit then some (natOfDigits disk_num) else none
      else none)
  else []

/-- One disk's contribution inside the per-node loop: `du -sb` adds the first
stdout token to `cache_size`, `find .. | wc -l` adds the stripped stdout to
`object_count`; a non-numeric token raises. -/
def sampleDisk (env : NodeEnv) (acc : Int × Int) (disk : Nat) : Except Unit (Int × Int) := do
  let du ← runCmd (env.duOut disk)
  let size ←
    if du.1 = 0 ∧ pyStrip du.2 ≠ [] then
      match (pySplitWs (pyStrip du.2)).head? with
      | some tok =>
        match pyInt? tok with
        | some n => Except.ok (acc.1 + n)
        | none => Except.error ()
      | none => Except.error ()
    else Except.ok acc.1
  let fnd ← runCmd (env.findOut disk)
  let count ←
    if fnd.1 = 0 then
      match pyInt? (pyStrip fnd.2) with
      | some n => Except.ok (acc.2 + n)
      | none => Except.error ()
    else Except.ok acc.2
  Except.ok (size, count)

/-- Hit/miss counting over the log tail: lines containing `CacheStatus=HIT`
count as hits, else lines containing `CacheStatus=MISS` count as misses. -/
def countHitsMisses (rc : Int) (stdout : List Char) : Nat × Nat :=
  if rc = 0 ∧ stdout ≠ [] then
    (pySplit stdout (chars "\n")).foldl (fun hm line =>
      if pyContains line (chars "CacheStatus=HIT") then (hm.1 + 1, hm.2)
      else if pyContains line (chars "CacheStatus=MISS") then (hm.1, hm.2 + 1)
      else hm) (0, 0)
  else (0, 0)

/-- Body of the per-container `try:` block of `get_docker_cache_stats`. -/
def sampleNode (env : NodeEnv) : Except Unit NodeStats := do
  let ls ← runCmd env.lsOut
  let available_disks := parseAvailableDisks ls.1 ls.2
  let disks_to_check := if available_disks ≠ [] then available_disks else [1, 2, 3, 4]
  let szCnt ← disks_to_check.foldlM (sampleDisk env) ((0 : Int), (0 : Int))
  let logs ← runCmd env.logsOut
  let hm := countHitsMisses logs.1 logs.2
  Except.ok ⟨szCnt.1, szCnt.2, hm.1, hm.2⟩

/-- Result recorded for one container: the sampled record, or the zero record
when the `try:` body raised (the `except` branch). -/
def nodeResult (env : NodeEnv) : NodeStats :=
  match sampleNode env with
  | Except.ok s => s
  | Except.error _ => zeroNodeStats

/-- Node number extracted from a container name:
`container.split('nginx-cache-')[1].split('-')[0]`. -/
def containerNodeNum (c : String) : List Char :=
  ((pySplit ((pySplit (chars c) (chars "nginx-cache-")).getD 1 []) (chars "-")).headD [])

/-- Canonical node name derived from a container name. -/
def containerNodeName (c : String) : String :=
  strOf (chars "nginx-cache-" ++ containerNodeNum c)

/-- Loop of `get_docker_cache_stats`: the `node_name` binding is only updated
for containers whose name contains `nginx-cache-`; when no binding exists yet
the stale-name read raises a `NameError` that escapes the function. -/
def get_docker_cache_stats_loop (env : String → NodeEnv) :
    List String → Option String → Except Unit (List (String × NodeStats))
  | [], _ => Except.ok []
  | container :: rest, last =>
    let name? :=
      if pyContains (chars container) (chars "nginx-cache-") then some (containerNodeName container)
      else last
    match name? with
    | none => Except.error ()
    | some node_name => do
      let tail ← get_docker_cache_stats_loop env rest name?
      Except.ok ((node_name, nodeResult (env container)) :: tail)

/-- Cache statistics from the discovered containers (`get_docker_cache_stats`). -/
def get_docker_cache_stats (containers : List String) (env : String → NodeEnv) :
    Except Unit (List (String × NodeStats)) :=
  get_docker_cache_stats_loop env containers none

/-! ### Disk sampler (`get_disk_stats`) -/

/-- Per-disk statistics record. -/
structure DiskStats where
  total : Int
  used : Int
  available : Int
  percent : Rat
deriving DecidableEq

/-- The all-zero disk record used on any failure. -/
def zeroDiskStats : DiskStats := ⟨0, 0, 0, 0⟩

/-- The fixed disk-label to mount-path configuration. -/
def disk_mounts : List (String × String) :=
  [("disk1", "/mnt/disk1"), ("disk2", "/mnt/disk2"), ("disk3", "/mnt/disk3"), ("disk4", "/mnt/disk4")]

/-- Record built from one `df -B1 .. | tail -n1` invocation: a non-zero exit,
fewer than 4 fields, a non-numeric field, or a raised call all degrade to the
all-zero record; otherwise `percent = used/total*100` guarded by `total > 0`. -/
def diskRecord : CmdAttempt → DiskStats
  | .raised => zeroDiskStats
  | .ran rc stdout =>
    if rc = 0 then
      let parts := pySplitWs (pyStrip stdout)
      if 4 ≤ parts.length then
        match pyInt? (parts.getD 1 []), pyInt? (parts.getD 2 []), pyInt? (parts.getD 3 []) with
        | some total, some used, some available =>
          ⟨total, used, available, if 0 < total then (used : Rat) / (total : Rat) * 100 else 0⟩
        | _, _, _ => zeroDiskStats
      else zeroDiskStats
    else zeroDiskStats

/-- Physical disk statistics for every configured mount (`get_disk_stats`). -/
def get_disk_stats (env : String → CmdAttempt) : List (String × DiskStats) :=
  disk_mounts.map (fun dm => (dm.1, diskRecord (env dm.2)))

/-! ### Network sampler (`get_network_stats`) -/

/-- Per-interface cumulative counters. -/
structure NetStats where
  rx_bytes : Int
  rx_packets : Int
  tx_bytes : Int
  tx_packets : Int
deriving DecidableEq

/-- The all-zero network record. -/
def zeroNetStats : NetStats := ⟨0, 0, 0, 0⟩

/-- The whitespace-separated counter fields after the interface-name colon:
`line.split(':', 1)[1].strip().split()` on the stripped stdout. -/
def netLineParts (stdout : List Char) : List (List Char) :=
  pySplitWs (pyStrip (pyAfterFirst (pyStrip stdout) (chars ":")))

/-- Parse of the `/proc/net/dev` line: with at least 9 fields the code reads
fields 0, 1, 8 and 9 (field 9 is out of range when exactly 9 fields exist,
raising an `IndexError`). -/
def parseNetLine (stdout : List Char) : Except Unit NetStats :=
  let line := pyStrip stdout
  if pyContains line (chars ":") then
    let parts := netLineParts stdout
    if 9 ≤ parts.length then
      match (parts.get? 0).bind pyInt?, (parts.get? 1).bind pyInt?,
          (parts.get? 8).bind pyInt?, (parts.get? 9).bind pyInt? with
      | some rxb, some rxp, some txb, some txp => Except.ok ⟨rxb, rxp, txb, txp⟩
      | _, _, _, _ => Except.error ()
    else Except.ok zeroNetStats
  else Except.ok zeroNetStats

/-- Record for one node's interface query: non-zero exit, empty stdout, parse
exceptions and raised calls all degrade to the all-zero record. -/
def netRecord : CmdAttempt → NetStats
  | .raised => zeroNetStats
  | .ran rc stdout =>
    if rc = 0 ∧ stdout ≠ [] then
      match parseNetLine stdout with
      | Except.ok s => s
      | Except.error _ => zeroNetStats
    else zeroNetStats

/-- Node name for a fixed ordinal (`f"nginx-cache-{node}"`). -/
def nodeNameOfOrdinal (i : Nat) : String := strOf (chars "nginx-cache-" ++ natChars i)

/-- Container name for a fixed ordinal (`f"tc-nginx-nginx-cache-{node}-1"`). -/
def networkContainer (i : Nat) : String :=
  strOf (chars "tc-nginx-nginx-cache-" ++ natChars i ++ chars "-1")

/-- Network statistics for the fixed node ordinals 1..4 (`get_network_stats`). -/
def get_network_stats (env : String → CmdAttempt) : List (String × NetStats) :=
  (List.range' 1 4).map (fun node =>
    (nodeNameOfOrdinal node, netRecord (env (networkContainer node))))

/-! ### Metric registry model -/

/-- The gauge families created at module load (source names in `metric_name`). -/
inductive MetricName where
  | cacheUsedBytes | cacheTotalBytes | cacheObjectCount | cacheUsagePercent
  | cacheHits | cacheMisses | cacheHitRatio
  | netRxBytes | netTxBytes | netRxPackets | netTxPackets
deriving DecidableEq

/-- The exposition name of each gauge, verbatim from the `Gauge(...)` calls. -/
def metric_name : MetricName → String
  | .cacheUsedBytes => "nginx_cache_disk_used_bytes"
  | .cacheTotalBytes => "nginx_cache_disk_total_bytes"
  | .cacheObjectCount => "nginx_cache_object_count"
  | .cacheUsagePercent => "nginx_cache_disk_usage_percent"
  | .cacheHits => "nginx_cache_hits_total"
  | .cacheMisses => "nginx_cache_misses_total"
  | .cacheHitRatio => "nginx_cache_hit_ratio"
  | .netRxBytes => "network_interface_rx_bytes"
  | .netTxBytes => "network_interface_tx_bytes"
  | .netRxPackets => "network_interface_rx_packets"
  | .netTxPackets => "network_interface_tx_packets"

/-- The label keys of each gauge, verbatim from the `Gauge(...)` calls. -/
def metric_label_keys : MetricName → List String
  | .cacheUsedBytes => ["node", "disk"]
  | .cacheTotalBytes => ["node", "disk"]
  | .cacheObjectCount => ["node"]
  | .cacheUsagePercent => ["node", "disk"]
  | .cacheHits => ["node"]
  | .cacheMisses => ["node"]
  | .cacheHitRatio => ["node"]
  | .netRxBytes => ["interface"]
  | .netTxBytes => ["interface"]
  | .netRxPackets => ["interface"]
  | .netTxPackets => ["interface"]

/-- A label assignment, as key/value pairs in declaration order. -/
abbrev Labels := List (String × String)

/-- One `gauge.labels(..).set(..)` call. -/
structure Write where
  name : MetricName
  labels : Labels
  value : Rat

/-- Label set `labels(node=n)`. -/
def nodeLabel (n : String) : Labels := [("node", n)]

/-- Label set `labels(node=n, disk=d)`. -/
def nodeDiskLabel (n d : String) : Labels := [("node", n), ("disk", d)]

/-- Label set `labels(interface=i)`. -/
def ifaceLabel (i : String) : Labels := [("interface", i)]

/-- Last-write-wins accumulator over one cycle's `set` calls. -/
def pubStep (n : MetricName) (ls : Labels) (acc : Option Rat) (w : Write) : Option Rat :=
  if w.name = n ∧ w.labels = ls then some w.value else acc

/-- The value of a labelled series after a sequence of `set` calls (the
published metric set; `none` means the series is absent). -/
def publish (ws : List Write) (n : MetricName) (ls : Labels) : Option Rat :=
  ws.foldl (pubStep n ls) none

/-- Python `dict` membership/get on an association list with unique keys. -/
def dictLookup {β : Type} (k : String) : List (String × β) → Option β
  | [] => none
  | p :: rest => if p.1 = k then some p.2 else dictLookup k rest

/-! ### Aggregator (`update_metrics`) -/

/-- The fixed 10 GB per-node cache capacity ceiling (`10 * 1024 * 1024 * 1024`). -/
def nodeCeiling : Nat := 10 * 1024 * 1024 * 1024

/-- Hit-ratio formula `hits/(hits+misses)*100 if (hits+misses) > 0 else 0`,
shared by the per-node and the aggregate computation. -/
def hit_ratio_of (hits misses : Nat) : Rat :=
  if 0 < hits + misses then (hits : Rat) / ((hits : Rat) + (misses : Rat)) * 100 else 0

/-- The seven zero writes for a configured node absent from the sampler result. -/
def zeroNodeWrites (node_name : String) : List Write :=
  [⟨.cacheObjectCount, nodeLabel node_name, 0⟩,
   ⟨.cacheUsedBytes, nodeDiskLabel node_name "cache", 0⟩,
   ⟨.cacheTotalBytes, nodeDiskLabel node_name "cache", 0⟩,
   ⟨.cacheUsagePercent, nodeDiskLabel node_name "cache", 0⟩,
   ⟨.cacheHits, nodeLabel node_name, 0⟩,
   ⟨.cacheMisses, nodeLabel node_name, 0⟩,
   ⟨.cacheHitRatio, nodeLabel node_name, 0⟩]

/-- Zero-fill pass over the configured ordinals 1..4 (`range(1, 5)`): nodes
missing from the sampler result get explicit zero series. -/
def zeroFillWrites (docker : List (String × NodeStats)) : List Write :=
  (List.range' 1 4).flatMap (fun i =>
    let node_name := nodeNameOfOrdinal i
    if (dictLookup node_name docker).isSome then [] else zeroNodeWrites node_name)

/-- The seven writes for one node present in the sampler result: object count,
used bytes, the fixed ceiling, used-percent guarded on `cache_size > 0`, hits,
misses and the hit ratio. -/
def nodeBlock (p : String × NodeStats) : List Write :=
  [⟨.cacheObjectCount, nodeLabel p.1, (p.2.object_count : Rat)⟩,
   ⟨.cacheUsedBytes, nodeDiskLabel p.1 "cache", (p.2.cache_size : Rat)⟩,
   ⟨.cacheTotalBytes, nodeDiskLabel p.1 "cache", (nodeCeiling : Rat)⟩,
   ⟨.cacheUsagePercent, nodeDiskLabel p.1 "cache",
     if 0 < p.2.cache_size then (p.2.cache_size : Rat) / (nodeCeiling : Rat) * 100 else 0⟩,
   ⟨.cacheHits, nodeLabel p.1, (p.2.hits : Rat)⟩,
   ⟨.cacheMisses, nodeLabel p.1, (p.2.misses : Rat)⟩,
   ⟨.cacheHitRatio, nodeLabel p.1, hit_ratio_of p.2.hits p.2.misses⟩]

/-- The three writes for one physical disk, published verbatim under
`node='physical'`. -/
def diskBlock (p : String × DiskStats) : List Write :=
  [⟨.cacheUsedBytes, nodeDiskLabel "physical" p.1, (p.2.used : Rat)⟩,
   ⟨.cacheTotalBytes, nodeDiskLabel "physical" p.1, (p.2.total : Rat)⟩,
   ⟨.cacheUsagePercent, nodeDiskLabel "physical" p.1, p.2.percent⟩]

/-- Accumulated `total_cache_used` over the per-node loop. -/
def total_cache_used (docker : List (String × NodeStats)) : Int :=
  (docker.map (fun p => p.2.cache_size)).sum

/-- Accumulated `total_hits` over the per-node loop. -/
def total_hits (docker : List (String × NodeStats)) : Nat :=
  (docker.map (fun p => p.2.hits)).sum

/-- Accumulated `total_misses` over the per-node loop. -/
def total_misses (docker : List (String × NodeStats)) : Nat :=
  (docker.map (fun p => p.2.misses)).sum

/-- Accumulated `total_physical_capacity` over the per-disk loop. -/
def total_physical_capacity (disk : List (String × DiskStats)) : Int :=
  (disk.map (fun p => p.2.total)).sum

/-- The aggregate `node='all', disk='total'` record: container cache bytes for
`used`, physical capacity for `total`, percent guarded on the capacity, and
the hit ratio over summed hits/misses. -/
def aggWrites (docker : List (String × NodeStats)) (disk : List (String × DiskStats)) :
    List Write :=
  [⟨.cacheUsedBytes, nodeDiskLabel "all" "total", (total_cache_used docker : Rat)⟩,
   ⟨.cacheTotalBytes, nodeDiskLabel "all" "total", (total_physical_capacity disk : Rat)⟩,
   ⟨.cacheUsagePercent, nodeDiskLabel "all" "total",
     if 0 < total_physical_capacity disk then
       (total_cache_used docker : Rat) / (total_physical_capacity disk : Rat) * 100
     else 0⟩,
   ⟨.cacheHits, nodeLabel "all", (total_hits docker : Rat)⟩,
   ⟨.cacheMisses, nodeLabel "all", (total_misses docker : Rat)⟩,
   ⟨.cacheHitRatio, nodeLabel "all", hit_ratio_of (total_hits docker) (total_misses docker)⟩]

/-- The four writes for one interface's counters. -/
def netBlock (p : String × NetStats) : List Write :=
  [⟨.netRxBytes, ifaceLabel p.1, (p.2.rx_bytes : Rat)⟩,
   ⟨.netTxBytes, ifaceLabel p.1, (p.2.tx_bytes : Rat)⟩,
   ⟨.netRxPackets, ifaceLabel p.1, (p.2.rx_packets : Rat)⟩,
   ⟨.netTxPackets, ifaceLabel p.1, (p.2.tx_packets : Rat)⟩]

/-- All `set` calls of one `update_metrics` cycle, in source order, given the
three samplers' results. -/
def update_metrics (docker : List (String × NodeStats)) (disk : List (String × DiskStats))
    (net : List (String × NetStats)) : List Write :=
  zeroFillWrites docker ++ docker.flatMap nodeBlock ++ disk.flatMap diskBlock ++
    aggWrites docker disk ++ net.flatMap netBlock

/-! ### Main loop -/

/-- Everything one cycle consumes from the outside world. -/
structure CycleEnv where
  containers : List String
  nodeEnv : String → NodeEnv
  diskEnv : String → CmdAttempt
  netEnv : String → CmdAttempt

/-- One `update_metrics()` call including its sampler invocations; an escaping
exception (the stale-`node_name` `NameError`) surfaces as `Except.error`. -/
def run_update_metrics (e : CycleEnv) : Except Unit (List Write) := do
  let docker_stats ← get_docker_cache_stats e.containers e.nodeEnv
  Except.ok (update_metrics docker_stats (get_disk_stats e.diskEnv) (get_network_stats e.netEnv))

/-- What one iteration of the `while True:` loop does: a successful update, or
a caught-and-logged error. -/
inductive CycleOutcome where
  | updated
  | loggedError
deriving DecidableEq

/-- One loop iteration: the `try/except` around `update_metrics()`. -/
def run_cycle (e : CycleEnv) : CycleOutcome :=
  match run_update_metrics e with
  | Except.ok _ => .updated
  | Except.error _ => .loggedError

/-- The main loop over a (finite prefix of the) sequence of per-cycle
environments: every cycle runs, none terminates the process. -/
def main_loop (envs : List CycleEnv) : List CycleOutcome := envs.map run_cycle

/-! ### Published-series lemmas -/

theorem publish_nil (n : MetricName) (ls : Labels) : publish [] n ls = none := rfl

theorem publish_cons (w : Write) (ws : List Write) (n : MetricName) (ls : Labels) :
    publish (w :: ws) n ls = ws.foldl (pubStep n ls) (pubStep n ls none w) := rfl

theorem foldl_pubStep_eq (n : MetricName) (ls : Labels) (ws : List Write) :
    ∀ a : Option Rat, ws.foldl (pubStep n ls) a = (publish ws n ls).elim a some := by
  induction ws with
  | nil => intro a; rfl
  | cons w ws ih =>
    intro a
    have hcons : publish (w :: ws) n ls = (publish ws n ls).elim (pubStep n ls none w) some := by
      simpa [publish_cons] using ih (pubStep n ls none w)
    rw [List.foldl_cons, ih (pubStep n ls a w), hcons]
    cases hp : publish ws n ls with
    | some v => simp
    | none =>
      simp only [Option.elim]
      by_cases hc : w.name = n ∧ w.labels = ls
      · simp [pubStep, hc]
      · simp [pubStep, hc]

theorem publish_append (ws1 ws2 : List Write) (n : MetricName) (ls : Labels) :
    publish (ws1 ++ ws2) n ls = (publish ws2 n ls).elim (publish ws1 n ls) some := by
  unfold publish
  rw [List.foldl_append]
  exact foldl_pubStep_eq n ls ws2 _

theorem publish_append_none {ws1 ws2 : List Write} {n : MetricName} {ls : Labels}
    (h : publish ws2 n ls = none) : publish (ws1 ++ ws2) n ls = publish ws1 n ls := by
  rw [publish_append, h]
  rfl

theorem publish_append_some {ws1 ws2 : List Write} {n : MetricName} {ls : Labels} {v : Rat}
    (h : publish ws2 n ls = some v) : publish (ws1 ++ ws2) n ls = some v := by
  rw [publish_append, h]
  rfl

theorem publish_eq_none {n : MetricName} {ls : Labels} :
    ∀ {ws : List Write}, (∀ w ∈ ws, ¬(w.name = n ∧ w.labels = ls)) → publish ws n ls = none := by
  intro ws
  induction ws with
  | nil => intro _; rfl
  | cons w ws ih =>
    intro h
    rw [publish_cons]
    have hw : pubStep n ls none w = none := by
      simp only [pubStep, if_neg (h w (List.mem_cons_self w ws))]
    rw [hw]
    exact ih (fun x hx => h x (List.mem_cons_of_mem w hx))

theorem publish_isSome_of_mem {ws : List Write} {w : Write} {n : MetricName} {ls : Labels}
    (hw : w ∈ ws) (hn : w.name = n) (hl : w.labels = ls) : (publish ws n ls).isSome := by
  induction ws with
  | nil => cases hw
  | cons x ws ih =>
    rw [publish_cons, foldl_pubStep_eq]
    cases hp : publish ws n ls with
    | some v => simp
    | none =>
      rcases List.mem_cons.mp hw with h | h
      · subst h; simp [pubStep, hn, hl]
      · have := ih h
        rw [hp] at this
        simp at this

theorem publish_bind_none {α : Type} {f : α → List Write} {n : MetricName} {ls : Labels} :
    ∀ {l : List α}, (∀ x ∈ l, publish (f x) n ls = none) → publish (l.flatMap f) n ls = none := by
  intro l
  induction l with
  | nil => intro _; rfl
  | cons x l ih =>
    intro h
    rw [List.flatMap_cons, publish_append_none (ih (fun y hy => h y (List.mem_cons_of_mem x hy)))]
    exact h x (List.mem_cons_self x l)

theorem publish_bind_single {α : Type} {f : α → List Write} {n : MetricName} {ls : Labels}
    {v : Rat} {x : α} :
    ∀ {l : List α}, l.Nodup → x ∈ l → publish (f x) n ls = some v →
      (∀ y ∈ l, y ≠ x → publish (f y) n ls = none) → publish (l.flatMap f) n ls = some v := by
  intro l
  induction l with
  | nil => intro _ hx; cases hx
  | cons z l ih =>
    intro hnd hx hmatch hnomatch
    rw [List.flatMap_cons]
    rcases List.mem_cons.mp hx with hzx | hxl
    · have hrest : publish (l.flatMap f) n ls = none := by
        apply publish_bind_none
        intro y hy
        refine hnomatch y (List.mem_cons_of_mem z hy) ?_
        intro hyx
        exact (List.nodup_cons.mp hnd).1 (hzx ▸ hyx ▸ hy)
      rw [publish_append_none hrest, ← hzx]
      exact hmatch
    · have htail := ih (List.nodup_cons.mp hnd).2 hxl hmatch
        (fun y hy hyx => hnomatch y (List.mem_cons_of_mem z hy) hyx)
      exact publish_append_some htail

/-! ### Dictionary lemmas -/

theorem dictLookup_eq_none_iff {β : Type} {k : String} :
    ∀ {l : List (String × β)}, dictLookup k l = none ↔ ∀ p ∈ l, p.1 ≠ k := by
  intro l
  induction l with
  | nil => simp [dictLookup]
  | cons p l ih => by_cases h : p.1 = k <;> simp [dictLookup, h, ih]

theorem mem_of_dictLookup {β : Type} {k : String} {v : β} :
    ∀ {l : List (String × β)}, dictLookup k l = some v → (k, v) ∈ l := by
  intro l
  induction l with
  | nil => intro h; cases h
  | cons p l ih =>
    intro h
    by_cases hp : p.1 = k
    · rw [dictLookup, if_pos hp] at h
      injection h with h'
      have : p = (k, v) := by
        cases p
        simp only at hp h'
        simp [hp, h']
      simp [this]
    · rw [dictLookup, if_neg hp] at h
      exact List.mem_cons_of_mem p (ih h)

theorem dictLookup_map {α β : Type} (key : α → String) (val : α → β) {x : α} :
    ∀ {l : List α}, (l.map key).Nodup → x ∈ l →
      dictLookup (key x) (l.map (fun y => (key y, val y))) = some (val x) := by
  intro l
  induction l with
  | nil => intro _ hx; cases hx
  | cons z l ih =>
    intro hnd hx
    rcases List.mem_cons.mp hx with rfl | hxl
    · simp [dictLookup]
    · have hnd' : (key z :: l.map key).Nodup := by simpa using hnd
      have hz : key z ≠ key x := by
        intro h
        exact (List.nodup_cons.mp hnd').1 (h ▸ List.mem_map_of_mem key hxl)
      have hzx : (fun y => (key y, val y)) z = (key z, val z) := rfl
      simp only [List.map_cons, dictLookup, hzx]
      rw [if_neg hz]
      exact ih (List.nodup_cons.mp hnd').2 hxl

/-! ### Segment lemmas for `update_metrics` -/

theorem publish_diskBind_nodeLabel (disk : List (String × DiskStats)) (n : MetricName)
    (name : String) : publish (disk.flatMap diskBlock) n (nodeLabel name) = none := by
  apply publish_bind_none
  intro p _
  apply publish_eq_none
  intro w hw
  simp only [diskBlock, List.mem_cons, List.not_mem_nil, or_false] at hw
  rcases hw with rfl | rfl | rfl <;> simp [nodeDiskLabel, nodeLabel]

theorem publish_diskBind_cache (disk : List (String × DiskStats)) (n : MetricName)
    (name : String) (hp : name ≠ "physical") :
    publish (disk.flatMap diskBlock) n (nodeDiskLabel name "cache") = none := by
  apply publish_bind_none
  intro p _
  apply publish_eq_none
  intro w hw
  simp only [diskBlock, List.mem_cons, List.not_mem_nil, or_false] at hw
  rcases hw with rfl | rfl | rfl <;> simp [nodeDiskLabel, hp.symm]

theorem publish_agg_nodeLabel (docker : List (String × NodeStats))
    (disk : List (String × DiskStats)) (n : MetricName) (name : String) (ha : name ≠ "all") :
    publish (aggWrites docker disk) n (nodeLabel name) = none := by
  apply publish_eq_none
  intro w hw
  simp only [aggWrites, List.mem_cons, List.not_mem_nil, or_false] at hw
  rcases hw with rfl | rfl | rfl | rfl | rfl | rfl <;> simp [nodeDiskLabel, nodeLabel, ha.symm]

theorem publish_agg_cache (docker : List (String × NodeStats))
    (disk : List (String × DiskStats)) (n : MetricName) (name : String) :
    publish (aggWrites docker disk) n (nodeDiskLabel name "cache") = none := by
  apply publish_eq_none
  intro w hw
  simp only [aggWrites, List.mem_cons, List.not_mem_nil, or_false] at hw
  rcases hw with rfl | rfl | rfl | rfl | rfl | rfl <;> simp [nodeDiskLabel, nodeLabel]

theorem publish_netBind_cacheName (net : List (String × NetStats)) (n : MetricName)
    (ls : Labels) (h1 : n ≠ .netRxBytes) (h2 : n ≠ .netTxBytes) (h3 : n ≠ .netRxPackets)
    (h4 : n ≠ .netTxPackets) : publish (net.flatMap netBlock) n ls = none := by
  apply publish_bind_none
  intro p _
  apply publish_eq_none
  intro w hw
  simp only [netBlock, List.mem_cons, List.not_mem_nil, or_false] at hw
  rcases hw with rfl | rfl | rfl | rfl <;> simp [h1.symm, h2.symm, h3.symm, h4.symm]

/-- Any per-node cache series of a node called `name` (with `name` distinct
from the reserved `physical` and `all` labels) is decided by the zero-fill
pass and the per-node pass alone: the disk, aggregate and network segments
never touch it. -/
theorem publish_update_eq_nodeParts (docker : List (String × NodeStats))
    (disk : List (String × DiskStats)) (net : List (String × NetStats)) (n : MetricName)
    (ls : Labels) (name : String) (hp : name ≠ "physical") (ha : name ≠ "all")
    (hls : ls = nodeLabel name ∨ ls = nodeDiskLabel name "cache")
    (h1 : n ≠ .netRxBytes) (h2 : n ≠ .netTxBytes) (h3 : n ≠ .netRxPackets)
    (h4 : n ≠ .netTxPackets) :
    publish (update_metrics docker disk net) n ls =
      (publish (docker.flatMap nodeBlock) n ls).elim (publish (zeroFillWrites docker) n ls) some := by
  have hE : publish (net.flatMap netBlock) n ls = none :=
    publish_netBind_cacheName net n ls h1 h2 h3 h4
  have hD : publish (aggWrites docker disk) n ls = none := by
    rcases hls with rfl | rfl
    · exact publish_agg_nodeLabel docker disk n name ha
    · exact publish_agg_cache docker disk n name
  have hC : publish (disk.flatMap diskBlock) n ls = none := by
    rcases hls with rfl | rfl
    · exact publish_diskBind_nodeLabel disk n name
    · exact publish_diskBind_cache disk n name hp
  unfold update_metrics
  rw [publish_append_none hE, publish_append_none hD, publish_append_none hC, publish_append]

theorem publish_nodeBind_lookup {docker : List (String × NodeStats)}
    (hnd : (docker.map Prod.fst).Nodup) {name : String} {s : NodeStats}
    (hl : dictLookup name docker = some s) {n : MetricName} {ls : Labels} {v : Rat}
    (hb1 : publish (nodeBlock (name, s)) n ls = some v)
    (hb2 : ∀ k t, k ≠ name → publish (nodeBlock (k, t)) n ls = none) :
    publish (docker.flatMap nodeBlock) n ls = some v := by
  apply publish_bind_single (List.Nodup.of_map _ hnd) (mem_of_dictLookup hl) hb1
  intro y hy hyne
  by_cases hk : y.1 = name
  · exfalso
    exact hyne (List.inj_on_of_nodup_map hnd hy (mem_of_dictLookup hl) (by simpa using hk))
  · exact hb2 y.1 y.2 hk

theorem publish_nodeBind_absent {docker : List (String × NodeStats)} {name : String}
    (hl : dictLookup name docker = none) {n : MetricName} {ls : Labels}
    (hb2 : ∀ k t, k ≠ name → publish (nodeBlock (k, t)) n ls = none) :
    publish (docker.flatMap nodeBlock) n ls = none :=
  publish_bind_none (fun y hy => hb2 y.1 y.2 (dictLookup_eq_none_iff.mp hl y hy))

theorem ordinal_names_inj :
    ∀ a ∈ List.range' 1 4, ∀ b ∈ List.range' 1 4,
      nodeNameOfOrdinal a = nodeNameOfOrdinal b → a = b := by decide

theorem publish_zeroFill_absent {docker : List (String × NodeStats)} {i : Nat}
    (hi : i ∈ List.range' 1 4)
    (habs : dictLookup (nodeNameOfOrdinal i) docker = none) {n : MetricName} {ls : Labels}
    {v : Rat} (hz1 : publish (zeroNodeWrites (nodeNameOfOrdinal i)) n ls = some v)
    (hz2 : ∀ k, k ≠ nodeNameOfOrdinal i → publish (zeroNodeWrites k) n ls = none) :
    publish (zeroFillWrites docker) n ls = some v := by
  refine publish_bind_single ?_ hi ?_ ?_
  · decide
  · dsimp only
    rw [habs]
    simpa using hz1
  · intro j hj hji
    dsimp only
    by_cases h : (dictLookup (nodeNameOfOrdinal j) docker).isSome = true
    · simp [h, publish_nil]
    · simp only [h, Bool.false_eq_true, if_false]
      exact hz2 _ (fun e => hji (ordinal_names_inj j hj i hi e))

theorem publish_zeroFill_of_present {docker : List (String × NodeStats)} {name : String}
    (hl : (dictLookup name docker).isSome = true) {n : MetricName} {ls : Labels}
    (hz2 : ∀ k, k ≠ name → publish (zeroNodeWrites k) n ls = none) :
    publish (zeroFillWrites docker) n ls = none := by
  apply publish_bind_none
  intro i _
  dsimp only
  by_cases h : (dictLookup (nodeNameOfOrdinal i) docker).isSome = true
  · simp [h, publish_nil]
  · simp only [h, Bool.false_eq_true, if_false]
    refine hz2 _ (fun e => h ?_)
    rw [e]
    exact hl

/-- Values of the seven series inside one present node's block. -/
theorem nodeBlock_series (name : String) (s : NodeStats) :
    publish (nodeBlock (name, s)) .cacheObjectCount (nodeLabel name) =
        some ((s.object_count : Rat)) ∧
      publish (nodeBlock (name, s)) .cacheUsedBytes (nodeDiskLabel name "cache") =
        some ((s.cache_size : Rat)) ∧
      publish (nodeBlock (name, s)) .cacheTotalBytes (nodeDiskLabel name "cache") =
        some ((nodeCeiling : Rat)) ∧
      publish (nodeBlock (name, s)) .cacheUsagePercent (nodeDiskLabel name "cache") =
        some (if 0 < s.cache_size then (s.cache_size : Rat) / (nodeCeiling : Rat) * 100 else 0) ∧
      publish (nodeBlock (name, s)) .cacheHits (nodeLabel name) = some ((s.hits : Rat)) ∧
      publish (nodeBlock (name, s)) .cacheMisses (nodeLabel name) = some ((s.misses : Rat)) ∧
      publish (nodeBlock (name, s)) .cacheHitRatio (nodeLabel name) =
        some (hit_ratio_of s.hits s.misses) := by
  refine ⟨?_, ?_, ?_, ?_, ?_, ?_, ?_⟩ <;>
    simp [publish, nodeBlock, pubStep, nodeLabel, nodeDiskLabel]

/-- A differently-named node's block never writes `name`'s series. -/
theorem nodeBlock_series_ne (name k : String) (s : NodeStats) (hk : k ≠ name) :
    (∀ n : MetricName, publish (nodeBlock (k, s)) n (nodeLabel name) = none) ∧
      (∀ n : MetricName, publish (nodeBlock (k, s)) n (nodeDiskLabel name "cache") = none) := by
  refine ⟨?_, ?_⟩ <;>
    (intro n; simp [publish, nodeBlock, pubStep, nodeLabel, nodeDiskLabel, hk])

/-- Values of the seven series inside one zero-fill block. -/
theorem zeroNodeWrites_series (name : String) :
    publish (zeroNodeWrites name) .cacheObjectCount (nodeLabel name) = some 0 ∧
      publish (zeroNodeWrites name) .cacheUsedBytes (nodeDiskLabel name "cache") = some 0 ∧
      publish (zeroNodeWrites name) .cacheTotalBytes (nodeDiskLabel name "cache") = some 0 ∧
      publish (zeroNodeWrites name) .cacheUsagePercent (nodeDiskLabel name "cache") = some 0 ∧
      publish (zeroNodeWrites name) .cacheHits (nodeLabel name) = some 0 ∧
      publish (zeroNodeWrites name) .cacheMisses (nodeLabel name) = some 0 ∧
      publish (zeroNodeWrites name) .cacheHitRatio (nodeLabel name) = some 0 := by
  refine ⟨?_, ?_, ?_, ?_, ?_, ?_, ?_⟩ <;>
    simp [publish, zeroNodeWrites, pubStep, nodeLabel, nodeDiskLabel]

/-- A differently-named zero-fill block never writes `name`'s series. -/
theorem zeroNodeWrites_series_ne (name k : String) (hk : k ≠ name) :
    (∀ n : MetricName, publish (zeroNodeWrites k) n (nodeLabel name) = none) ∧
      (∀ n : MetricName, publish (zeroNodeWrites k) n (nodeDiskLabel name "cache") = none) := by
  refine ⟨?_, ?_⟩ <;>
    (intro n; simp [publish, zeroNodeWrites, pubStep, nodeLabel, nodeDiskLabel, hk])

/-- Published values of the seven cache series of a node present in the
sampler result (for a node name distinct from the reserved `physical` and
`all` labels). -/
theorem publish_update_present (docker : List (String × NodeStats))
    (disk : List (String × DiskStats)) (net : List (String × NetStats)) (name : String)
    (s : NodeStats) (hnd : (docker.map Prod.fst).Nodup) (hl : dictLookup name docker = some s)
    (hp : name ≠ "physical") (ha : name ≠ "all") :
    publish (update_metrics docker disk net) .cacheObjectCount (nodeLabel name) =
        some ((s.object_count : Rat)) ∧
      publish (update_metrics docker disk net) .cacheUsedBytes (nodeDiskLabel name "cache") =
        some ((s.cache_size : Rat)) ∧
      publish (update_metrics docker disk net) .cacheTotalBytes (nodeDiskLabel name "cache") =
        some ((nodeCeiling : Rat)) ∧
      publish (update_metrics docker disk net) .cacheUsagePercent (nodeDiskLabel name "cache") =
        some (if 0 < s.cache_size then (s.cache_size : Rat) / (nodeCeiling : Rat) * 100 else 0) ∧
      publish (update_metrics docker disk net) .cacheHits (nodeLabel name) =
        some ((s.hits : Rat)) ∧
      publish (update_metrics docker disk net) .cacheMisses (nodeLabel name) =
        some ((s.misses : Rat)) ∧
      publish (update_metrics docker disk net) .cacheHitRatio (nodeLabel name) =
        some (hit_ratio_of s.hits s.misses) := by
  have hp' := fun t (k : String) (hk : k ≠ name) => nodeBlock_series_ne name k t hk
  refine ⟨?_, ?_, ?_, ?_, ?_, ?_, ?_⟩
  · rw [publish_update_eq_nodeParts docker disk net _ _ name hp ha (Or.inl rfl)
      (by simp) (by simp) (by simp) (by simp),
      publish_nodeBind_lookup hnd hl (nodeBlock_series name s).1
        (fun k t hk => (hp' t k hk).1 _)]
    rfl
  · rw [publish_update_eq_nodeParts docker disk net _ _ name hp ha (Or.inr rfl)
      (by simp) (by simp) (by simp) (by simp),
      publish_nodeBind_lookup hnd hl (nodeBlock_series name s).2.1
        (fun k t hk => (hp' t k hk).2 _)]
    rfl
  · rw [publish_update_eq_nodeParts docker disk net _ _ name hp ha (Or.inr rfl)
      (by simp) (by simp) (by simp) (by simp),
      publish_nodeBind_lookup hnd hl (nodeBlock_series name s).2.2.1
        (fun k t hk => (hp' t k hk).2 _)]
    rfl
  · rw [publish_update_eq_nodeParts docker disk net _ _ name hp ha (Or.inr rfl)
      (by simp) (by simp) (by simp) (by simp),
      publish_nodeBind_lookup hnd hl (nodeBlock_series name s).2.2.2.1
        (fun k t hk => (hp' t k hk).2 _)]
    rfl
  · rw [publish_update_eq_nodeParts docker disk net _ _ name hp ha (Or.inl rfl)
      (by simp) (by simp) (by simp) (by simp),
      publish_nodeBind_lookup hnd hl (nodeBlock_series name s).2.2.2.2.1
        (fun k t hk => (hp' t k hk).1 _)]
    rfl
  · rw [publish_update_eq_nodeParts docker disk net _ _ name hp ha (Or.inl rfl)
      (by simp) (by simp) (by simp) (by simp),
      publish_nodeBind_lookup hnd hl (nodeBlock_series name s).2.2.2.2.2.1
        (fun k t hk => (hp' t k hk).1 _)]
    rfl
  · rw [publish_update_eq_nodeParts docker disk net _ _ name hp ha (Or.inl rfl)
      (by simp) (by simp) (by simp) (by simp),
      publish_nodeBind_lookup hnd hl (nodeBlock_series name s).2.2.2.2.2.2
        (fun k t hk => (hp' t k hk).1 _)]
    rfl

/-- Published values of the seven cache series of a configured ordinal absent
from the sampler result: all zero-filled. -/
theorem publish_update_absent (docker : List (String × NodeStats))
    (disk : List (String × DiskStats)) (net : List (String × NetStats)) (i : Nat)
    (hi : i ∈ List.range' 1 4) (habs : dictLookup (nodeNameOfOrdinal i) docker = none)
    (hp : nodeNameOfOrdinal i ≠ "physical") (ha : nodeNameOfOrdinal i ≠ "all") :
    publish (update_metrics docker disk net) .cacheObjectCount
        (nodeLabel (nodeNameOfOrdinal i)) = some 0 ∧
      publish (update_metrics docker disk net) .cacheUsedBytes
        (nodeDiskLabel (nodeNameOfOrdinal i) "cache") = some 0 ∧
      publish (update_metrics docker disk net) .cacheTotalBytes
        (nodeDiskLabel (nodeNameOfOrdinal i) "cache") = some 0 ∧
      publish (update_metrics docker disk net) .cacheUsagePercent
        (nodeDiskLabel (nodeNameOfOrdinal i) "cache") = some 0 ∧
      publish (update_metrics docker disk net) .cacheHits
        (nodeLabel (nodeNameOfOrdinal i)) = some 0 ∧
      publish (update_metrics docker disk net) .cacheMisses
        (nodeLabel (nodeNameOfOrdinal i)) = some 0 ∧
      publish (update_metrics docker disk net) .cacheHitRatio
        (nodeLabel (nodeNameOfOrdinal i)) = some 0 := by
  set name := nodeNameOfOrdinal i with hname
  have hznm := fun (k : String) (hk : k ≠ name) => zeroNodeWrites_series_ne name k hk
  have hz := zeroNodeWrites_series name
  have hbn := fun t (k : String) (hk : k ≠ name) => nodeBlock_series_ne name k t hk
  refine ⟨?_, ?_, ?_, ?_, ?_, ?_, ?_⟩
  · rw [publish_update_eq_nodeParts docker disk net _ _ name hp ha (Or.inl rfl)
      (by simp) (by simp) (by simp) (by simp),
      publish_nodeBind_absent habs (fun k t hk => (hbn t k hk).1 _)]
    exact publish_zeroFill_absent hi habs hz.1 (fun k hk => (hznm k hk).1 _)
  · rw [publish_update_eq_nodeParts docker disk net _ _ name hp ha (Or.inr rfl)
      (by simp) (by simp) (by simp) (by simp),
      publish_nodeBind_absent habs (fun k t hk => (hbn t k hk).2 _)]
    exact publish_zeroFill_absent hi habs hz.2.1 (fun k hk => (hznm k hk).2 _)
  · rw [publish_update_eq_nodeParts docker disk net _ _ name hp ha (Or.inr rfl)
      (by simp) (by simp) (by simp) (by simp),
      publish_nodeBind_absent habs (fun k t hk => (hbn t k hk).2 _)]
    exact publish_zeroFill_absent hi habs hz.2.2.1 (fun k hk => (hznm k hk).2 _)
  · rw [publish_update_eq_nodeParts docker disk net _ _ name hp ha (Or.inr rfl)
      (by simp) (by simp) (by simp) (by simp),
      publish_nodeBind_absent habs (fun k t hk => (hbn t k hk).2 _)]
    exact publish_zeroFill_absent hi habs hz.2.2.2.1 (fun k hk => (hznm k hk).2 _)
  · rw [publish_update_eq_nodeParts docker disk net _ _ name hp ha (Or.inl rfl)
      (by simp) (by simp) (by simp) (by simp),
      publish_nodeBind_absent habs (fun k t hk => (hbn t k hk).1 _)]
    exact publish_zeroFill_absent hi habs hz.2.2.2.2.1 (fun k hk => (hznm k hk).1 _)
  · rw [publish_update_eq_nodeParts docker disk net _ _ name hp ha (Or.inl rfl)
      (by simp) (by simp) (by simp) (by simp),
      publish_nodeBind_absent habs (fun k t hk => (hbn t k hk).1 _)]
    exact publish_zeroFill_absent hi habs hz.2.2.2.2.2.1 (fun k hk => (hznm k hk).1 _)
  · rw [publish_update_eq_nodeParts docker disk net _ _ name hp ha (Or.inl rfl)
      (by simp) (by simp) (by simp) (by simp),
      publish_nodeBind_absent habs (fun k t hk => (hbn t k hk).1 _)]
    exact publish_zeroFill_absent hi habs hz.2.2.2.2.2.2 (fun k hk => (hznm k hk).1 _)

theorem ord_ne_reserved :
    ∀ i ∈ List.range' 1 4, nodeNameOfOrdinal i ≠ "physical" ∧ nodeNameOfOrdinal i ≠ "all" := by
  decide

/-- The seven published cache series of one node, in catalogue order. -/
def nodeSeries (ws : List Write) (name : String) : List (Option Rat) :=
  [publish ws .cacheUsedBytes (nodeDiskLabel name "cache"),
   publish ws .cacheTotalBytes (nodeDiskLabel name "cache"),
   publish ws .cacheUsagePercent (nodeDiskLabel name "cache"),
   publish ws .cacheObjectCount (nodeLabel name),
   publish ws .cacheHits (nodeLabel name),
   publish ws .cacheMisses (nodeLabel name),
   publish ws .cacheHitRatio (nodeLabel name)]

/-! ### Claims -/

/-- C3: the published aggregate record under the `node='all', disk='total'`
label has used-bytes equal to the sum of per-node cache sizes, total-bytes
equal to the sum of per-disk physical totals (not per-node ceilings), percent
equal to used/total×100 guarded on total>0, and hit-ratio computed over the
summed hits and misses; `update_metrics` is a pure function of the sampled
inputs, so recomputation yields identical aggregates. -/
theorem C3_aggregate_record (docker : List (String × NodeStats))
    (disk : List (String × DiskStats)) (net : List (String × NetStats)) :
    publish (update_metrics docker disk net) .cacheUsedBytes (nodeDiskLabel "all" "total") =
        some ((total_cache_used docker : Rat)) ∧
      publish (update_metrics docker disk net) .cacheTotalBytes (nodeDiskLabel "all" "total") =
        some ((total_physical_capacity disk : Rat)) ∧
      publish (update_metrics docker disk net) .cacheUsagePercent (nodeDiskLabel "all" "total") =
        some (if 0 < total_physical_capacity disk then
          (total_cache_used docker : Rat) / (total_physical_capacity disk : Rat) * 100 else 0) ∧
      publish (update_metrics docker disk net) .cacheHits (nodeLabel "all") =
        some ((total_hits docker : Rat)) ∧
      publish (update_metrics docker disk net) .cacheMisses (nodeLabel "all") =
        some ((total_misses docker : Rat)) ∧
      publish (update_metrics docker disk net) .cacheHitRatio (nodeLabel "all") =
        some (hit_ratio_of (total_hits docker) (total_misses docker)) ∧
      total_cache_used docker = (docker.map (fun p => p.2.cache_size)).sum ∧
      total_physical_capacity disk = (disk.map (fun p => p.2.total)).sum := by
  refine ⟨?_, ?_, ?_, ?_, ?_, ?_, rfl, rfl⟩ <;>
  · unfold update_metrics
    rw [publish_append_none
      (publish_netBind_cacheName net _ _ (by simp) (by simp) (by simp) (by simp))]
    exact publish_append_some (by simp [publish, aggWrites, pubStep, nodeLabel, nodeDiskLabel])

/-- C1: after any cycle, every configured node ordinal 1..4 has a complete
set of per-node cache series with defined values — zero-filled when the node
produced no sample — and no configured node's series is absent. -/
theorem C1_label_space_complete (docker : List (String × NodeStats))
    (disk : List (String × DiskStats)) (net : List (String × NetStats)) (i : Nat)
    (hnd : (docker.map Prod.fst).Nodup) (hi : i ∈ List.range' 1 4) :
    (∀ o ∈ nodeSeries (update_metrics docker disk net) (nodeNameOfOrdinal i), o.isSome) ∧
      (dictLookup (nodeNameOfOrdinal i) docker = none →
        nodeSeries (update_metrics docker disk net) (nodeNameOfOrdinal i) =
          List.replicate 7 (some 0)) := by
  obtain ⟨hp, ha⟩ := ord_ne_reserved i hi
  constructor
  · intro o ho
    cases hl : dictLookup (nodeNameOfOrdinal i) docker with
    | none =>
      obtain ⟨e1, e2, e3, e4, e5, e6, e7⟩ := publish_update_absent docker disk net i hi hl hp ha
      simp only [nodeSeries, List.mem_cons, List.not_mem_nil, or_false] at ho
      rcases ho with rfl | rfl | rfl | rfl | rfl | rfl | rfl <;>
        simp [e1, e2, e3, e4, e5, e6, e7]
    | some s =>
      obtain ⟨e1, e2, e3, e4, e5, e6, e7⟩ :=
        publish_update_present docker disk net (nodeNameOfOrdinal i) s hnd hl hp ha
      simp only [nodeSeries, List.mem_cons, List.not_mem_nil, or_false] at ho
      rcases ho with rfl | rfl | rfl | rfl | rfl | rfl | rfl <;>
        simp [e1, e2, e3, e4, e5, e6, e7]
  · intro hl
    obtain ⟨e1, e2, e3, e4, e5, e6, e7⟩ := publish_update_absent docker disk net i hi hl hp ha
    simp [nodeSeries, e1, e2, e3, e4, e5, e6, e7, List.replicate]

/-- C1 witness at concrete inputs: with an empty sampler result every series
of node 1 is published and zero-filled. -/
theorem C1_witness :
    nodeSeries (update_metrics [] [] []) (nodeNameOfOrdinal 1) = List.replicate 7 (some 0) :=
  (C1_label_space_complete [] [] [] 1 (by simp) (by decide)).2 rfl

/-- C10: the capacity-ceiling series is not uniform over the configured label
space: an ordinal absent from the sampler result publishes total-bytes 0,
while a present node publishes the fixed ceiling 10737418240 bytes, and the
two values differ. -/
theorem C10_ceiling_series_nonuniform (docker : List (String × NodeStats))
    (disk : List (String × DiskStats)) (net : List (String × NetStats)) (i : Nat)
    (hnd : (docker.map Prod.fst).Nodup) (hi : i ∈ List.range' 1 4) :
    (dictLookup (nodeNameOfOrdinal i) docker = none →
      publish (update_metrics docker disk net) .cacheTotalBytes
        (nodeDiskLabel (nodeNameOfOrdinal i) "cache") = some 0) ∧
      (∀ s, dictLookup (nodeNameOfOrdinal i) docker = some s →
        publish (update_metrics docker disk net) .cacheTotalBytes
          (nodeDiskLabel (nodeNameOfOrdinal i) "cache") = some ((10737418240 : Rat))) ∧
      (0 : Rat) ≠ 10737418240 := by
  obtain ⟨hp, ha⟩ := ord_ne_reserved i hi
  refine ⟨?_, ?_, by norm_num⟩
  · intro hl
    exact (publish_update_absent docker disk net i hi hl hp ha).2.2.1
  · intro s hl
    have h := (publish_update_present docker disk net (nodeNameOfOrdinal i) s hnd hl hp ha).2.2.1
    rw [h]
    norm_num [nodeCeiling]

/-- C10 witness at concrete inputs: node 1 present publishes the 10 GiB
ceiling while absent node 2 publishes 0. -/
theorem C10_witness :
    publish (update_metrics [("nginx-cache-1", ⟨5, 1, 0, 0⟩)] [] []) .cacheTotalBytes
        (nodeDiskLabel (nodeNameOfOrdinal 1) "cache") = some ((10737418240 : Rat)) ∧
      publish (update_metrics [("nginx-cache-1", ⟨5, 1, 0, 0⟩)] [] []) .cacheTotalBytes
        (nodeDiskLabel (nodeNameOfOrdinal 2) "cache") = some 0 :=
  ⟨(C10_ceiling_series_nonuniform [("nginx-cache-1", ⟨5, 1, 0, 0⟩)] [] [] 1
      (by simp) (by decide)).2.1 ⟨5, 1, 0, 0⟩ (by rfl),
   (C10_ceiling_series_nonuniform [("nginx-cache-1", ⟨5, 1, 0, 0⟩)] [] [] 2
      (by simp) (by decide)).1 (by rfl)⟩

/-- C5: for a node present in the sampler result, the published used-percent
is `used/ceiling*100` against the fixed 10 GiB per-node ceiling, except that
the guard is on the numerator: the value is 0 when `cache_size = 0` (unlike
the disk calculation, which guards on the denominator). -/
theorem C5_node_percent_formula (docker : List (String × NodeStats))
    (disk : List (String × DiskStats)) (net : List (String × NetStats)) (name : String)
    (s : NodeStats) (hnd : (docker.map Prod.fst).Nodup)
    (hl : dictLookup name docker = some s) (hp : name ≠ "physical") (ha : name ≠ "all") :
    publish (update_metrics docker disk net) .cacheUsagePercent (nodeDiskLabel name "cache") =
        some (if 0 < s.cache_size then (s.cache_size : Rat) / (nodeCeiling : Rat) * 100 else 0) ∧
      (s.cache_size = 0 →
        publish (update_metrics docker disk net) .cacheUsagePercent
          (nodeDiskLabel name "cache") = some 0) ∧
      nodeCeiling = 10737418240 := by
  have h := (publish_update_present docker disk net name s hnd hl hp ha).2.2.2.1
  refine ⟨h, ?_, by norm_num [nodeCeiling]⟩
  intro h0
  rw [h, h0]
  norm_num

/-- C5 witness at concrete inputs: a node with 5 GiB used publishes the
guarded percent formula, and a node with 0 bytes used publishes percent 0. -/
theorem C5_witness :
    publish (update_metrics [("nginx-cache-1", ⟨5368709120, 3, 0, 0⟩)] [] [])
        .cacheUsagePercent (nodeDiskLabel "nginx-cache-1" "cache") =
      some (if 0 < (5368709120 : Int) then ((5368709120 : Int) : Rat) / (nodeCeiling : Rat) * 100
        else 0) ∧
    publish (update_metrics [("nginx-cache-2", ⟨0, 0, 0, 0⟩)] [] [])
        .cacheUsagePercent (nodeDiskLabel "nginx-cache-2" "cache") = some 0 :=
  ⟨(C5_node_percent_formula [("nginx-cache-1", ⟨5368709120, 3, 0, 0⟩)] [] [] "nginx-cache-1"
      ⟨5368709120, 3, 0, 0⟩ (by simp) (by rfl) (by decide) (by decide)).1,
   (C5_node_percent_formula [("nginx-cache-2", ⟨0, 0, 0, 0⟩)] [] [] "nginx-cache-2"
      ⟨0, 0, 0, 0⟩ (by simp) (by rfl) (by decide) (by decide)).2.1 rfl⟩

/-- C2 counterexample: a node sampled with 0 hits and 1 miss publishes
hit-ratio 0 although hits+misses = 1 ≠ 0, refuting the claimed "equals 0
exactly when hits+misses=0". -/
theorem C2_counterexample :
    publish (update_metrics [("nginx-cache-1", ⟨0, 0, 0, 1⟩)] [] []) .cacheHitRatio
        (nodeLabel "nginx-cache-1") = some 0 ∧
      (0 : Nat) + 1 ≠ 0 := by
  refine ⟨?_, by decide⟩
  have h := (publish_update_present [("nginx-cache-1", ⟨0, 0, 0, 1⟩)] [] [] "nginx-cache-1"
    ⟨0, 0, 0, 1⟩ (by simp) (by rfl) (by decide) (by decide)).2.2.2.2.2.2
  rw [h]
  norm_num [hit_ratio_of]

/-- C2 amended: the hit-ratio always lies in [0,100], and it equals 0 exactly
when the hit count is 0 (so in particular when hits+misses = 0, but also when
hits = 0 with misses > 0); every published hit-ratio value is an instance of
this formula, hence lies in [0,100]. -/
theorem C2_hit_ratio_range (hits misses : Nat) (docker : List (String × NodeStats))
    (disk : List (String × DiskStats)) (net : List (String × NetStats)) (w : Write)
    (hw : w ∈ update_metrics docker disk net) (hn : w.name = .cacheHitRatio) :
    (0 ≤ hit_ratio_of hits misses ∧ hit_ratio_of hits misses ≤ 100 ∧
      (hit_ratio_of hits misses = 0 ↔ hits = 0)) ∧
      0 ≤ w.value ∧ w.value ≤ 100 := by
  have hmain : ∀ h m : Nat, 0 ≤ hit_ratio_of h m ∧ hit_ratio_of h m ≤ 100 ∧
      (hit_ratio_of h m = 0 ↔ h = 0) := by
    intro h m
    unfold hit_ratio_of
    by_cases hc : 0 < h + m
    · rw [if_pos hc]
      have hd : (0 : Rat) < (h : Rat) + (m : Rat) := by exact_mod_cast hc
      refine ⟨?_, ?_, ?_, ?_⟩
      · positivity
      · have h1 : (h : Rat) / ((h : Rat) + (m : Rat)) ≤ 1 :=
          (div_le_one hd).mpr (by exact_mod_cast Nat.le_add_right h m)
        calc (h : Rat) / ((h : Rat) + (m : Rat)) * 100 ≤ 1 * 100 := by
              exact mul_le_mul_of_nonneg_right h1 (by norm_num)
          _ = 100 := by norm_num
      · intro hq
        rcases mul_eq_zero.mp hq with h1 | h1
        · rcases div_eq_zero_iff.mp h1 with h2 | h2
          · exact_mod_cast h2
          · exact absurd h2 (ne_of_gt hd)
        · norm_num at h1
      · intro h0
        subst h0
        simp
    · rw [if_neg hc]
      have h0 : h = 0 := by omega
      simp [h0]
  refine ⟨hmain hits misses, ?_⟩
  have hval : ∃ a b : Nat, w.value = hit_ratio_of a b := by
    unfold update_metrics at hw
    rcases List.mem_append.mp hw with hw | hw
    rotate_left
    · exfalso
      rcases List.mem_flatMap.mp hw with ⟨p, _, hwp⟩
      simp only [netBlock, List.mem_cons, List.not_mem_nil, or_false] at hwp
      rcases hwp with rfl | rfl | rfl | rfl <;> simp at hn
    rcases List.mem_append.mp hw with hw | hw
    rotate_left
    · simp only [aggWrites, List.mem_cons, List.not_mem_nil, or_false] at hw
      rcases hw with rfl | rfl | rfl | rfl | rfl | rfl <;> try simp at hn
      exact ⟨total_hits docker, total_misses docker, rfl⟩
    rcases List.mem_append.mp hw with hw | hw
    rotate_left
    · exfalso
      rcases List.mem_flatMap.mp hw with ⟨p, _, hwp⟩
      simp only [diskBlock, List.mem_cons, List.not_mem_nil, or_false] at hwp
      rcases hwp with rfl | rfl | rfl <;> simp at hn
    rcases List.mem_append.mp hw with hw | hw
    · rcases List.mem_flatMap.mp hw with ⟨i, _, hwi⟩
      rcases em ((dictLookup (nodeNameOfOrdinal i) docker).isSome = true) with hc | hc
      · simp only [hc, if_true] at hwi
        cases hwi
      · simp only [hc, Bool.false_eq_true, if_false] at hwi
        simp only [zeroNodeWrites, List.mem_cons, List.not_mem_nil, or_false] at hwi
        rcases hwi with rfl | rfl | rfl | rfl | rfl | rfl | rfl <;> try simp at hn
        exact ⟨0, 0, by simp [hit_ratio_of]⟩
    · rcases List.mem_flatMap.mp hw with ⟨p, _, hwp⟩
      simp only [nodeBlock, List.mem_cons, List.not_mem_nil, or_false] at hwp
      rcases hwp with rfl | rfl | rfl | rfl | rfl | rfl | rfl <;> try simp at hn
      exact ⟨p.2.hits, p.2.misses, rfl⟩
  obtain ⟨a, b, hab⟩ := hval
  rw [hab]
  exact ⟨(hmain a b).1, (hmain a b).2.1⟩

/-- C2 witness at concrete inputs: the published ratio write of a node with
80 hits and 20 misses is within bounds. -/
theorem C2_witness :
    (0 ≤ hit_ratio_of 80 20 ∧ hit_ratio_of 80 20 ≤ 100 ∧ (hit_ratio_of 80 20 = 0 ↔ 80 = 0)) ∧
      0 ≤ (Write.mk .cacheHitRatio (nodeLabel "nginx-cache-1") (hit_ratio_of 80 20)).value ∧
      (Write.mk .cacheHitRatio (nodeLabel "nginx-cache-1") (hit_ratio_of 80 20)).value ≤ 100 := by
  have hmem : (⟨.cacheHitRatio, nodeLabel "nginx-cache-1", hit_ratio_of 80 20⟩ : Write) ∈
      update_metrics [("nginx-cache-1", ⟨0, 0, 80, 20⟩)] [] [] := by
    unfold update_metrics
    refine List.mem_append.mpr (Or.inl ?_)
    refine List.mem_append.mpr (Or.inl ?_)
    refine List.mem_append.mpr (Or.inl ?_)
    refine List.mem_append.mpr (Or.inr ?_)
    refine List.mem_flatMap.mpr ⟨("nginx-cache-1", ⟨0, 0, 80, 20⟩), by simp, ?_⟩
    simp [nodeBlock]
  exact C2_hit_ratio_range 80 20 [("nginx-cache-1", ⟨0, 0, 80, 20⟩)] [] []
    ⟨.cacheHitRatio, nodeLabel "nginx-cache-1", hit_ratio_of 80 20⟩ hmem rfl

/-- C4: the disk sampler records every configured disk label; its percent is
always `used/total*100` guarded on `total > 0` (so `total = 0` yields 0 with
no division error), and a raised call, non-zero exit or short output yields
the all-zero record rather than an error. -/
theorem C4_disk_sampler_safe (env : String → CmdAttempt) :
    (get_disk_stats env).map Prod.fst = ["disk1", "disk2", "disk3", "disk4"] ∧
      (∀ p ∈ disk_mounts, dictLookup p.1 (get_disk_stats env) = some (diskRecord (env p.2))) ∧
      (∀ att : CmdAttempt, (diskRecord att).percent =
        if 0 < (diskRecord att).total then
          ((diskRecord att).used : Rat) / ((diskRecord att).total : Rat) * 100 else 0) ∧
      diskRecord .raised = zeroDiskStats ∧
      (∀ rc out, rc ≠ 0 ∨ (pySplitWs (pyStrip out)).length < 4 →
        diskRecord (.ran rc out) = zeroDiskStats) := by
  refine ⟨rfl, ?_, ?_, rfl, ?_⟩
  · intro p hp
    simp only [disk_mounts, List.mem_cons, List.not_mem_nil, or_false] at hp
    rcases hp with rfl | rfl | rfl | rfl <;> simp [get_disk_stats, disk_mounts, dictLookup]
  · intro att
    cases att with
    | raised => simp [diskRecord, zeroDiskStats]
    | ran rc out =>
      by_cases hrc : rc = 0
      · simp only [diskRecord, if_pos hrc]
        by_cases hlen : 4 ≤ (pySplitWs (pyStrip out)).length
        · simp only [hlen, if_true]
          rcases h1 : pyInt? ((pySplitWs (pyStrip out)).getD 1 []) with _ | t <;>
            rcases h2 : pyInt? ((pySplitWs (pyStrip out)).getD 2 []) with _ | u <;>
            rcases h3 : pyInt? ((pySplitWs (pyStrip out)).getD 3 []) with _ | a <;>
            simp [h1, h2, h3, zeroDiskStats]
        · simp [hlen, zeroDiskStats]
      · simp [diskRecord, hrc, zeroDiskStats]
  · intro rc out h
    rcases h with h | h
    · simp [diskRecord, h]
    · simp only [diskRecord]
      by_cases hrc : rc = 0
      · rw [if_pos hrc]
        simp only [if_neg (show ¬4 ≤ (pySplitWs (pyStrip out)).length by omega)]
      · rw [if_neg hrc]

/-- C4 witness at concrete inputs: a well-formed `df` line yields the exact
percent, and a failing call yields the zero record for every configured
disk label. -/
theorem C4_witness :
    dictLookup "disk1" (get_disk_stats (fun _ => CmdAttempt.raised)) = some zeroDiskStats ∧
      diskRecord (.ran 1 (chars "x")) = zeroDiskStats := by
  constructor
  · have h := (C4_disk_sampler_safe (fun _ => CmdAttempt.raised)).2.1
      ("disk1", "/mnt/disk1") (by decide)
    simpa using h
  · exact (C4_disk_sampler_safe (fun _ => CmdAttempt.raised)).2.2.2.2 1 (chars "x") (Or.inl (by decide))

/-- C9: the network sampler returns a record for all four node ordinals for
every environment; when the counter section holds exactly 9 fields, the
`>= 9` length guard passes but reading field index 9 raises, and the
per-node handler degrades the record to all zeros. -/
theorem C9_nine_field_line_degrades (env : String → CmdAttempt) :
    (get_network_stats env).map Prod.fst =
        ["nginx-cache-1", "nginx-cache-2", "nginx-cache-3", "nginx-cache-4"] ∧
      (∀ out, pyContains (pyStrip out) (chars ":") = true → (netLineParts out).length = 9 →
        parseNetLine out = Except.error ()) ∧
      (∀ out, (netLineParts out).length = 9 → netRecord (.ran 0 out) = zeroNetStats) := by
  have herr : ∀ out, pyContains (pyStrip out) (chars ":") = true →
      (netLineParts out).length = 9 → parseNetLine out = Except.error () := by
    intro out hcol h9
    simp only [parseNetLine]
    rw [if_pos hcol, if_pos (show 9 ≤ (netLineParts out).length by omega)]
    generalize netLineParts out = L at h9 ⊢
    rcases L with _ | ⟨x0, L⟩; · simp at h9
    rcases L with _ | ⟨x1, L⟩; · simp at h9
    rcases L with _ | ⟨x2, L⟩; · simp at h9
    rcases L with _ | ⟨x3, L⟩; · simp at h9
    rcases L with _ | ⟨x4, L⟩; · simp at h9
    rcases L with _ | ⟨x5, L⟩; · simp at h9
    rcases L with _ | ⟨x6, L⟩; · simp at h9
    rcases L with _ | ⟨x7, L⟩; · simp at h9
    rcases L with _ | ⟨x8, L⟩; · simp at h9
    rcases L with _ | ⟨x9, L⟩
    · rcases p0 : pyInt? x0 with _ | a <;> rcases p1 : pyInt? x1 with _ | b <;>
        rcases p8 : pyInt? x8 with _ | c <;> simp [p0, p1, p8]
    · simp at h9
  refine ⟨rfl, herr, ?_⟩
  intro out h9
  by_cases hout : out = []
  · simp [hout, netRecord, zeroNetStats]
  · by_cases hcol : pyContains (pyStrip out) (chars ":") = true
    · simp [netRecord, hout, herr out hcol h9]
    · have hok : parseNetLine out = Except.ok zeroNetStats := by
        simp [parseNetLine, hcol]
      simp [netRecord, hout, hok]

/-- C9 witness at concrete inputs: a `/proc/net/dev` line with exactly nine
counter fields degrades to the all-zero record, and the four node keys are
always present. -/
theorem C9_witness :
    parseNetLine (chars "eth0: 1 2 3 4 5 6 7 8 9") = Except.error () ∧
      netRecord (.ran 0 (chars "eth0: 1 2 3 4 5 6 7 8 9")) = zeroNetStats ∧
      (get_network_stats (fun _ => CmdAttempt.raised)).map Prod.fst =
        ["nginx-cache-1", "nginx-cache-2", "nginx-cache-3", "nginx-cache-4"] :=
  ⟨(C9_nine_field_line_degrades (fun _ => CmdAttempt.raised)).2.1
      (chars "eth0: 1 2 3 4 5 6 7 8 9") (by decide) (by decide),
   (C9_nine_field_line_degrades (fun _ => CmdAttempt.raised)).2.2
      (chars "eth0: 1 2 3 4 5 6 7 8 9") (by decide),
   (C9_nine_field_line_degrades (fun _ => CmdAttempt.raised)).1⟩

/-- C7: every cycle of the main loop yields an outcome — a successful update
or a caught-and-logged error — and the loop completes as many cycles as
environments supplied: no cycle-level exception terminates the process. -/
theorem C7_cycle_errors_caught (envs : List CycleEnv) :
    (main_loop envs).length = envs.length ∧
      ∀ o ∈ main_loop envs, o = CycleOutcome.updated ∨ o = CycleOutcome.loggedError := by
  refine ⟨by simp [main_loop], ?_⟩
  intro o ho
  rcases List.mem_map.mp ho with ⟨e, _, rfl⟩
  cases h : run_update_metrics e with
  | ok ws => exact Or.inl (by simp [run_cycle, h])
  | error u => exact Or.inr (by simp [run_cycle, h])

/-- A cycle environment whose discovery yields a container name without the
`nginx-cache-` token, making `update_metrics` raise the stale-name error. -/
def crashingCycleEnv : CycleEnv :=
  ⟨["bogus"], fun _ => ⟨.raised, fun _ => .raised, fun _ => .raised, .raised⟩,
    fun _ => .raised, fun _ => .raised⟩

/-- C7 witness at a concrete input: a cycle whose update raises still yields
an outcome and the loop completes. -/
theorem C7_witness :
    (main_loop [crashingCycleEnv]).length = [crashingCycleEnv].length ∧
      (run_cycle crashingCycleEnv = CycleOutcome.updated ∨
        run_cycle crashingCycleEnv = CycleOutcome.loggedError) :=
  ⟨(C7_cycle_errors_caught [crashingCycleEnv]).1,
   (C7_cycle_errors_caught [crashingCycleEnv]).2 (run_cycle crashingCycleEnv)
      (by simp [main_loop])⟩

/-- Metric names exactly as the specification's catalogue writes them, for
comparison with the implementation's registered names. -/
def specCatalogueCacheNames : List String :=
  ["cache_disk_used_bytes", "cache_disk_total_bytes", "cache_object_count",
   "cache_disk_usage_percent", "cache_hits_total", "cache_misses_total", "cache_hit_ratio"]

/-- C8 counterexample: the registered name of the used-bytes gauge is
`nginx_cache_disk_used_bytes`, which is not any of the catalogue's names —
the catalogue drops the `nginx_` prefix the code actually registers. -/
theorem C8_counterexample :
    metric_name .cacheUsedBytes = "nginx_cache_disk_used_bytes" ∧
      "nginx_cache_disk_used_bytes" ∉ specCatalogueCacheNames ∧
      metric_name .cacheUsedBytes ≠ "cache_disk_used_bytes" := by
  decide

/-- C8 amended: the seven cache gauge names are exactly the catalogue names
prefixed with `nginx_`; the four network gauge names match the catalogue
verbatim; the label keys are exactly as the catalogue states them. -/
theorem C8_metric_names_prefixed :
    [MetricName.cacheUsedBytes, .cacheTotalBytes, .cacheObjectCount, .cacheUsagePercent,
        .cacheHits, .cacheMisses, .cacheHitRatio].map metric_name =
      specCatalogueCacheNames.map (fun s => strOf (chars "nginx_" ++ chars s)) ∧
      metric_name .netRxBytes = "network_interface_rx_bytes" ∧
      metric_name .netTxBytes = "network_interface_tx_bytes" ∧
      metric_name .netRxPackets = "network_interface_rx_packets" ∧
      metric_name .netTxPackets = "network_interface_tx_packets" ∧
      metric_label_keys .cacheUsedBytes = ["node", "disk"] ∧
      metric_label_keys .cacheTotalBytes = ["node", "disk"] ∧
      metric_label_keys .cacheObjectCount = ["node"] ∧
      metric_label_keys .cacheUsagePercent = ["node", "disk"] ∧
      metric_label_keys .cacheHits = ["node"] ∧
      metric_label_keys .cacheMisses = ["node"] ∧
      metric_label_keys .cacheHitRatio = ["node"] ∧
      metric_label_keys .netRxBytes = ["interface"] ∧
      metric_label_keys .netTxBytes = ["interface"] ∧
      metric_label_keys .netRxPackets = ["interface"] ∧
      metric_label_keys .netTxPackets = ["interface"] := by
  decide

/-! ### Lemmas for the cache sampler -/

theorem gdcs_loop_ok (env : String → NodeEnv) :
    ∀ (containers : List String) (last : Option String),
      (∀ d ∈ containers, pyContains (chars d) (chars "nginx-cache-") = true) →
      get_docker_cache_stats_loop env containers last =
        Except.ok (containers.map (fun d => (containerNodeName d, nodeResult (env d)))) := by
  intro containers
  induction containers with
  | nil => intro _ _; rfl
  | cons c rest ih =>
    intro last hall
    have hc := hall c (List.mem_cons_self c rest)
    have htail := ih (some (containerNodeName c))
      (fun d hd => hall d (List.mem_cons_of_mem c hd))
    simp only [get_docker_cache_stats_loop, hc, if_true, htail]
    rfl

theorem containerNodeName_ne (c : String) :
    containerNodeName c ≠ "physical" ∧ containerNodeName c ≠ "all" := by
  constructor <;>
  · intro h
    have h2 : (chars "nginx-cache-" ++ containerNodeNum c).length = (chars (strOf
        (chars "nginx-cache-" ++ containerNodeNum c))).length := rfl
    rw [containerNodeName] at h
    rw [h] at h2
    rw [List.length_append] at h2
    have h3 : (chars "nginx-cache-").length = 12 := by decide
    first
      | (have h4 : (chars "physical").length = 8 := by decide
         omega)
      | (have h4 : (chars "all").length = 3 := by decide
         omega)

theorem gdcs_keys (env : String → NodeEnv) (containers : List String) :
    ((containers.map (fun d => (containerNodeName d, nodeResult (env d)))).map Prod.fst) =
      containers.map containerNodeName := by
  simp [List.map_map, Function.comp]

/-- C6: with one container's environment changed arbitrarily (in particular,
made to fail), discovery still succeeds, the failed container's node degrades
to the all-zero record, and both the sampled records and the published
per-node series of every other container are unchanged. -/
theorem C6_failure_isolation (containers : List String) (env env' : String → NodeEnv)
    (c : String)
    (hall : ∀ d ∈ containers, pyContains (chars d) (chars "nginx-cache-") = true)
    (hnd : (containers.map containerNodeName).Nodup)
    (hc : c ∈ containers)
    (hagree : ∀ d, d ≠ c → env' d = env d) :
    ∃ r r', get_docker_cache_stats containers env = Except.ok r ∧
      get_docker_cache_stats containers env' = Except.ok r' ∧
      (sampleNode (env' c) = Except.error () →
        dictLookup (containerNodeName c) r' = some zeroNodeStats) ∧
      (∀ d ∈ containers, d ≠ c →
        dictLookup (containerNodeName d) r' = dictLookup (containerNodeName d) r) ∧
      (∀ d ∈ containers, d ≠ c → ∀ disk net,
        nodeSeries (update_metrics r' disk net) (containerNodeName d) =
          nodeSeries (update_metrics r disk net) (containerNodeName d)) := by
  refine ⟨containers.map (fun d => (containerNodeName d, nodeResult (env d))),
    containers.map (fun d => (containerNodeName d, nodeResult (env' d))), ?_, ?_, ?_, ?_, ?_⟩
  · exact gdcs_loop_ok env containers none hall
  · exact gdcs_loop_ok env' containers none hall
  · intro herr
    rw [dictLookup_map containerNodeName (fun d => nodeResult (env' d)) hnd hc]
    simp [nodeResult, herr]
  · intro d hd hdc
    rw [dictLookup_map containerNodeName (fun d => nodeResult (env' d)) hnd hd,
      dictLookup_map containerNodeName (fun d => nodeResult (env d)) hnd hd,
      hagree d hdc]
  · intro d hd hdc disk net
    have hk : ((containers.map (fun d => (containerNodeName d, nodeResult (env d)))).map
        Prod.fst).Nodup := by
      rw [gdcs_keys]
      exact hnd
    have hk' : ((containers.map (fun d => (containerNodeName d, nodeResult (env' d)))).map
        Prod.fst).Nodup := by
      rw [gdcs_keys]
      exact hnd
    have hsome : dictLookup (containerNodeName d)
        (containers.map (fun d => (containerNodeName d, nodeResult (env d)))) =
          some (nodeResult (env d)) :=
      dictLookup_map containerNodeName (fun d => nodeResult (env d)) hnd hd
    have hsome' : dictLookup (containerNodeName d)
        (containers.map (fun d => (containerNodeName d, nodeResult (env' d)))) =
          some (nodeResult (env d)) := by
      rw [dictLookup_map containerNodeName (fun d => nodeResult (env' d)) hnd hd,
        hagree d hdc]
    obtain ⟨p1, p2, p3, p4, p5, p6, p7⟩ := publish_update_present
      (containers.map (fun d => (containerNodeName d, nodeResult (env d)))) disk net
      (containerNodeName d) (nodeResult (env d)) hk hsome
      (containerNodeName_ne d).1 (containerNodeName_ne d).2
    obtain ⟨q1, q2, q3, q4, q5, q6, q7⟩ := publish_update_present
      (containers.map (fun d => (containerNodeName d, nodeResult (env' d)))) disk net
      (containerNodeName d) (nodeResult (env d)) hk' hsome'
      (containerNodeName_ne d).1 (containerNodeName_ne d).2
    simp [nodeSeries, p1, p2, p3, p4, p5, p6, p7, q1, q2, q3, q4, q5, q6, q7]

/-- A healthy container environment: one disk slot with 500 bytes used,
7 objects, and one cache hit in the log tail. -/
def goodNodeEnv : NodeEnv :=
  ⟨.ran 0 (chars "/cache/disk1"), fun _ => .ran 0 (chars "500\t/cache/disk1"),
    fun _ => .ran 0 (chars "7"), .ran 0 (chars "x CacheStatus=HIT y")⟩

/-- A failing container environment: the `du` output is non-numeric, so the
per-node sampling raises. -/
def badNodeEnv : NodeEnv :=
  ⟨.ran 0 (chars "/cache/disk1"), fun _ => .ran 0 (chars "garbage output"),
    fun _ => .ran 0 (chars "7"), .ran 0 (chars "")⟩

/-- Environment where only container 2 fails. -/
def mixedNodeEnv (d : String) : NodeEnv :=
  if d = "tc-nginx-nginx-cache-2-1" then badNodeEnv else goodNodeEnv

/-- C6 witness at concrete inputs: with container 2 made to fail, node 2
degrades to the zero record while node 1's sampled record is unchanged. -/
theorem C6_witness :
    dictLookup "nginx-cache-2"
        [("nginx-cache-1", (⟨500, 7, 1, 0⟩ : NodeStats)), ("nginx-cache-2", zeroNodeStats)] =
      some zeroNodeStats ∧
    dictLookup "nginx-cache-1"
        [("nginx-cache-1", (⟨500, 7, 1, 0⟩ : NodeStats)), ("nginx-cache-2", zeroNodeStats)] =
      dictLookup "nginx-cache-1"
        [("nginx-cache-1", (⟨500, 7, 1, 0⟩ : NodeStats)),
          ("nginx-cache-2", (⟨500, 7, 1, 0⟩ : NodeStats))] := by
  obtain ⟨r, r', h1, h2, h3, h4, _⟩ := C6_failure_isolation
    ["tc-nginx-nginx-cache-1-1", "tc-nginx-nginx-cache-2-1"] (fun _ => goodNodeEnv) mixedNodeEnv
    "tc-nginx-nginx-cache-2-1" (by decide) (by decide) (by decide)
    (fun d hd => if_neg hd)
  have e1 : get_docker_cache_stats ["tc-nginx-nginx-cache-1-1", "tc-nginx-nginx-cache-2-1"]
      (fun _ => goodNodeEnv) = Except.ok
        [("nginx-cache-1", (⟨500, 7, 1, 0⟩ : NodeStats)),
          ("nginx-cache-2", (⟨500, 7, 1, 0⟩ : NodeStats))] := rfl
  have e2 : get_docker_cache_stats ["tc-nginx-nginx-cache-1-1", "tc-nginx-nginx-cache-2-1"]
      mixedNodeEnv = Except.ok
        [("nginx-cache-1", (⟨500, 7, 1, 0⟩ : NodeStats)), ("nginx-cache-2", zeroNodeStats)] := rfl
  rw [e1] at h1
  rw [e2] at h2
  injection h1 with h1
  injection h2 with h2
  subst h1
  subst h2
  exact ⟨h3 rfl, h4 "tc-nginx-nginx-cache-1-1" (by decide) (by decide)⟩
